import Mathlib

/-!
Shallow embedding of `keeper.py`, a personal time-tracking CLI.

Modelling conventions, chosen to mirror the Python source exactly:

* Naive `datetime.datetime` values are modelled as integers counting seconds
  (`ℤ`).  Naive datetime arithmetic is exact linear arithmetic on seconds, so
  this is a faithful abstraction; sub-second precision never matters to the
  program logic (all comparisons and differences below are on whole seconds).
* A calendar date (the result of `strftime("%Y-%m-%d")`) is modelled as the
  day number `t.fdiv 86400` (Python `//` is floor division, as is `Int.fdiv`).
  Two naive datetimes print the same `%Y-%m-%d` string iff they have the same
  day number, and subtracting `timedelta(days=k)` subtracts exactly `k` from
  the day number, so day-key strings and day numbers are in exact
  correspondence.
* Python `float` arithmetic on the small quantities involved (hours, quarter
  hours, pause lengths) is modelled by exact rational arithmetic (`ℚ`).
* `timedelta.seconds` is the normalized seconds component of a timedelta:
  for an integral difference of `d` seconds it equals `d % 86400` with a
  nonnegative result (Python flooring `%`), which is `Int.emod`, Lean's `%`.
* Python's builtin `round` (banker's rounding, round-half-to-even) is
  `pyRound` below.
-/

namespace Keeper

/-- The closed five-member category enumeration from `keeper.py`. -/
inductive BookingCategory : Type
  | VACATION
  | SICK
  | HOLIDAY
  | MOBILE
  | OFFICE
deriving DecidableEq, Repr

/-- The membership test `args.category in BookingCategory` checks the string
values of the enumeration; these are the five values. -/
def category_values : List String :=
  ["VACATION", "SICK", "HOLIDAY", "MOBILE", "OFFICE"]

/-- One record per calendar day, with the field defaults of the Python
`Booking` dataclass: timestamps absent, `pause = 0.5`, `productive_time = 0`,
`category = MOBILE`, `description = None`. -/
structure Booking : Type where
  checkin_timestamp : Option ℤ := none
  checkout_timestamp : Option ℤ := none
  pause : ℚ := 1/2
  productive_time : ℚ := 0
  category : BookingCategory := BookingCategory.MOBILE
  description : Option String := none
deriving DecidableEq, Repr

/-- The record store `self.__data`: a mapping from day-key to `Booking`
(day-keys modelled as day numbers). -/
abbrev Store : Type := ℤ → Option Booking

/-- The empty store (fresh `keeper.json` bootstraps `{"bookings": {}}`). -/
def Store.empty : Store := fun _ => none

/-- `self.__data[key] = booking`. -/
def Store.set (data : Store) (key : ℤ) (b : Booking) : Store :=
  fun k => if k = key then some b else data k

/-- Python's builtin `round` on a rational: round to the nearest integer,
ties to the even integer (banker's rounding). -/
def pyRound (x : ℚ) : ℤ :=
  if x - ⌊x⌋ < 1/2 then ⌊x⌋
  else if 1/2 < x - ⌊x⌋ then ⌊x⌋ + 1
  else if ⌊x⌋ % 2 = 0 then ⌊x⌋ else ⌊x⌋ + 1

/-- `Keeper.quarter_round(x, base=0.25) = base * round(x / base)`, at its
default base `0.25` (the only base the program ever uses). -/
def quarter_round (x : ℚ) : ℚ :=
  (1/4) * (pyRound (x / (1/4)) : ℚ)

/-- `self.__day_to_work_on`: initialized to `datetime.now()` and overwritten
with `datetime.fromisoformat(args.date)` when `--date` is given (lines 47 and
71-72 of `keeper.py`).  `now` is the process-start wall clock; `arg_date` is
the parsed `--date` moment (midnight of that date when a bare date is given). -/
def day_to_work_on (now : ℤ) (arg_date : Option ℤ) : ℤ :=
  arg_date.getD now

/-- The effective timestamp computed at the top of `Keeper.__check`: an
explicit `HH:MM` time (`booking_time`, as seconds past midnight) is combined
with the day-key's date, otherwise `self.__day_to_work_on` itself is used. -/
def booking_date_of (day : ℤ) (booking_time : Option ℤ) : ℤ :=
  match booking_time with
  | some t => 86400 * day.fdiv 86400 + t
  | none => day

/-- The booking mutation performed by `Keeper.__check` (lines 110-121):
overwrite the checked flag's timestamp with `booking_date`, then, if both
timestamps are present (datetimes are always truthy in Python), recompute
`productive_time = quarter_round(difference.seconds / 60 / 60) - dp` where
`difference.seconds` is the normalized seconds component
`(checkout - checkin) % 86400` and `dp` is the process-wide
`default_pause_length`. -/
def applyCheck (dp : ℚ) (checkin : Bool) (booking_date : ℤ) (b : Booking) :
    Booking :=
  let b1 := if checkin then { b with checkin_timestamp := some booking_date }
            else { b with checkout_timestamp := some booking_date }
  match b1.checkin_timestamp, b1.checkout_timestamp with
  | some ci, some co =>
      { b1 with productive_time :=
          quarter_round ((((co - ci) % 86400 : ℤ) : ℚ) / 60 / 60) - dp }
  | _, _ => b1

/-- The whole of `Keeper.__check` restricted to its store mutation: resolve
the effective timestamp and the day-key from `self.__day_to_work_on`, fetch
the existing booking or a default one (`Booking()` dataclass instances are
always truthy), update it and store it back.  The subsequent save-to-disk and
single-day render are modelled separately (`checkRender`). -/
def checkOp (dp : ℚ) (checkin : Bool) (day : ℤ) (booking_time : Option ℤ)
    (data : Store) : Store :=
  let key := day.fdiv 86400
  Store.set data key
    (applyCheck dp checkin (booking_date_of day booking_time)
      ((data key).getD {}))

/-- Folding a sequence of check-in/check-out operations over one booking
(`true` = check-in); each list entry carries the effective timestamp. -/
def applyChecks (dp : ℚ) (ops : List (Bool × ℤ)) (b : Booking) : Booking :=
  ops.foldl (fun acc op => applyCheck dp op.1 op.2 acc) b

/-- `Keeper.generate_day_keys(days)`: day-keys of `today - 0, 1, ..., days-1`
days, in that order.  `datetime.today()` is the (fixed) invocation moment
`now`; subtracting `timedelta(days=day)` subtracts `86400 * day` seconds. -/
def generate_day_keys (now : ℤ) (days : ℕ) : List ℤ :=
  (List.range days).map fun (day : ℕ) => (now - 86400 * (day : ℤ)).fdiv 86400

/-- The weekday of a timestamp (`strftime("%a")`), as a day-number residue
modulo 7; the concrete labelling of residues by names is irrelevant here. -/
def weekday_of (t : ℤ) : ℤ :=
  t.fdiv 86400 % 7

/-- The time-of-day of a timestamp (`strftime("%H:%M")`), in minutes past
midnight. -/
def time_of_day (t : ℤ) : ℤ :=
  (t % 86400).fdiv 60

/-- One rendered table row: either a row for an existing booking or the
all-placeholder row (`"---"` cells) for a day-key with no booking. -/
inductive Row : Type
  | booking (day : ℤ) (date : ℤ) (time_in : ℤ) (time_out : Option ℤ)
      (prod_time : ℚ) (pause : ℚ) (category : BookingCategory)
      (descr : Option String)
  | placeholder (day : ℤ) (date : ℤ)
deriving DecidableEq, Repr

/-- The productive-time cell of a row, when the row has one. -/
def Row.prodValue : Row → Option ℚ
  | .booking _ _ _ _ p _ _ _ => some p
  | .placeholder _ _ => none

/-- One iteration of the loop in `Keeper.print_table` (lines 129-140).
When a booking exists but has no `checkin_timestamp`, the Python code raises
(`datetime.now() - None` on the live-estimate path, `None.strftime` on the
row-building line — one of the two is reached whichever branch is taken), so
the row is `none` (failure).  Otherwise the productive-time cell is the
persisted value if truthy (non-zero) and the live estimate
`quarter_round((now - checkin).seconds / 60 / 60) - pause` (per-record
`pause` field, per-record!) if not. -/
def renderRow (now : ℤ) (data : Store) (key : ℤ) : Option Row :=
  match data key with
  | some day =>
      match day.checkin_timestamp with
      | none => none
      | some ci =>
          let productive_time_value : ℚ :=
            if day.productive_time ≠ 0 then day.productive_time
            else quarter_round ((((now - ci) % 86400 : ℤ) : ℚ) / 60 / 60)
                   - day.pause
          some (.booking (weekday_of ci) key (time_of_day ci)
            (day.checkout_timestamp.map time_of_day) productive_time_value
            day.pause day.category day.description)
  | none => some (.placeholder (weekday_of (86400 * key)) key)

/-- `Keeper.print_table`: render each key in order; `none` when any row
raises. -/
def print_table (now : ℤ) (data : Store) (keys : List ℤ) :
    Option (List Row) :=
  keys.mapM (renderRow now data)

/-- `Keeper.__check` with its observable side effects in source order: the
mutated store is saved to disk (line 122) before the single-day table is
printed (line 123), so the mutation persists even when the render raises. -/
def checkRender (dp : ℚ) (now day : ℤ) (checkin : Bool)
    (booking_time : Option ℤ) (data : Store) : Store × Option (List Row) :=
  let data2 := checkOp dp checkin day booking_time data
  (data2, print_table now data2 [day.fdiv 86400])

/-- The `--category` branch of `Keeper.__process_args` (lines 94-99): the
store is untouched; an unknown value prints a warning line and the run
continues (the function is total — no exception path), a known value is
merely echoed. -/
def categoryStep (data : Store) (c : String) : Store × String :=
  if c ∈ category_values then (data, c)
  else (data, "Unknown value: " ++ c)

/-! ### Helper lemmas -/

theorem pyRound_intCast (n : ℤ) : pyRound (n : ℚ) = n := by
  simp [pyRound, Int.floor_intCast]

theorem pyRound_abs_sub_le (x : ℚ) : |((pyRound x : ℤ) : ℚ) - x| ≤ 1/2 := by
  have h0 := Int.floor_le x
  have h1 := Int.lt_floor_add_one x
  unfold pyRound
  split_ifs with hlt hgt hev
  all_goals push_neg at *
  all_goals rw [abs_le]; constructor <;> push_cast <;> linarith

theorem pyRound_add_two_mul (x : ℚ) (m : ℤ) :
    pyRound (x + 2 * m) = pyRound x + 2 * m := by
  have hf : ⌊x + 2 * (m : ℚ)⌋ = ⌊x⌋ + 2 * m := by
    rw [show x + 2 * (m : ℚ) = x + ((2 * m : ℤ) : ℚ) by push_cast; ring,
      Int.floor_add_int]
  unfold pyRound
  rw [hf]
  have hfr : x + 2 * (m : ℚ) - ((⌊x⌋ + 2 * m : ℤ) : ℚ) = x - ⌊x⌋ := by
    push_cast; ring
  rw [hfr]
  have hpar : (⌊x⌋ + 2 * m) % 2 = ⌊x⌋ % 2 := by omega
  rw [hpar]
  split_ifs <;> omega

theorem quarter_round_int_div_four (n : ℤ) :
    quarter_round ((n : ℚ) / 4) = (n : ℚ) / 4 := by
  have h : ((n : ℚ) / 4) / (1/4) = (n : ℚ) := by ring
  unfold quarter_round
  rw [h, pyRound_intCast]
  ring

theorem quarter_round_add_24 (x : ℚ) (k : ℤ) :
    quarter_round (x + 24 * k) = quarter_round x + 24 * k := by
  have h : (x + 24 * (k : ℚ)) / (1/4) = x / (1/4) + 2 * ((48 * k : ℤ) : ℚ) := by
    push_cast; ring
  unfold quarter_round
  rw [h, pyRound_add_two_mul]
  push_cast
  ring

theorem fdiv_sub_day (now : ℤ) (d : ℕ) :
    (now - 86400 * (d : ℤ)).fdiv 86400 = now.fdiv 86400 - d := by
  rw [Int.fdiv_eq_ediv _ (by norm_num), Int.fdiv_eq_ediv _ (by norm_num),
    show now - 86400 * (d : ℤ) = now + (-(d : ℤ)) * 86400 by ring,
    Int.add_mul_ediv_right _ _ (by norm_num : (86400 : ℤ) ≠ 0)]
  ring

theorem applyCheck_true_fields (dp : ℚ) (ts : ℤ) (b : Booking) :
    (applyCheck dp true ts b).checkin_timestamp = some ts
    ∧ (applyCheck dp true ts b).checkout_timestamp = b.checkout_timestamp
    ∧ (applyCheck dp true ts b).pause = b.pause
    ∧ (applyCheck dp true ts b).category = b.category
    ∧ (applyCheck dp true ts b).description = b.description := by
  obtain ⟨ci, co, pz, pt, cat, ds⟩ := b
  cases co <;> simp [applyCheck]

theorem applyCheck_false_fields (dp : ℚ) (ts : ℤ) (b : Booking) :
    (applyCheck dp false ts b).checkout_timestamp = some ts
    ∧ (applyCheck dp false ts b).checkin_timestamp = b.checkin_timestamp
    ∧ (applyCheck dp false ts b).pause = b.pause
    ∧ (applyCheck dp false ts b).category = b.category
    ∧ (applyCheck dp false ts b).description = b.description := by
  obtain ⟨ci, co, pz, pt, cat, ds⟩ := b
  cases ci <;> simp [applyCheck]

/-! ### Claim theorems -/

/-- C5: `quarter_round x` is a multiple of `0.25` nearest to `x`, in the
sense `|quarter_round x - x| ≤ 0.125`, and `quarter_round` is idempotent. -/
theorem quarter_round_nearest_idempotent (x : ℚ) :
    (∃ n : ℤ, quarter_round x = (n : ℚ) / 4)
    ∧ |quarter_round x - x| ≤ 1/8
    ∧ quarter_round (quarter_round x) = quarter_round x := by
  have hq : quarter_round x = ((pyRound (x / (1/4)) : ℤ) : ℚ) / 4 := by
    unfold quarter_round; ring
  refine ⟨⟨pyRound (x / (1/4)), hq⟩, ?_, ?_⟩
  · have h := pyRound_abs_sub_le (x / (1/4))
    have hx : quarter_round x - x
        = (1/4) * (((pyRound (x / (1/4)) : ℤ) : ℚ) - x / (1/4)) := by
      unfold quarter_round; ring
    rw [hx, abs_mul, show |(1/4 : ℚ)| = 1/4 by norm_num]
    linarith
  · rw [hq, quarter_round_int_div_four, ← hq]

/-- C6: `generate_day_keys now n` is the list of the `n` consecutive
descending day numbers `today, today - 1, ..., today - (n-1)` (where
`today = now.fdiv 86400`); hence it has length `n`, its keys are pairwise
distinct, and `generate_day_keys now 1 = [today]`.  This is proved for every
`n`, which subsumes the claim's `n ≥ 1`. -/
theorem generate_day_keys_consecutive_descending (now : ℤ) (n : ℕ) :
    generate_day_keys now n
      = (List.range n).map (fun (i : ℕ) => now.fdiv 86400 - (i : ℤ))
    ∧ (generate_day_keys now n).length = n
    ∧ (generate_day_keys now n).Pairwise (· ≠ ·)
    ∧ generate_day_keys now 1 = [now.fdiv 86400] := by
  have hmap : generate_day_keys now n
      = (List.range n).map (fun (i : ℕ) => now.fdiv 86400 - (i : ℤ)) := by
    unfold generate_day_keys
    simp only [fdiv_sub_day]
  refine ⟨hmap, ?_, ?_, ?_⟩
  · simp [generate_day_keys]
  · rw [hmap, List.pairwise_map]
    refine (List.pairwise_lt_range n).imp ?_
    intro a b hab hEq
    omega
  · unfold generate_day_keys
    simp [fdiv_sub_day, List.range_succ]

/-- C1: recording a check-in (explicit time `t_in`) and then a check-out
(explicit time `t_out`) on a fresh day-key stores a booking whose
`productive_time` is `quarter_round` of the hours between the checkout and
checkin timestamps minus the process-wide `default_pause_length` `dp`, with
`pause` still at its default `0.5` and category `MOBILE`.  `t_in ≤ t_out`
(checkout not before checkin, within the same day) is the regime in which
the normalized seconds component equals the true difference; outside it see
the modulo-24h theorem for C10. -/
theorem checkin_then_checkout_productive (dp : ℚ) (day t_in t_out : ℤ)
    (data : Store) (h0 : data (day.fdiv 86400) = none) (h1 : t_in ≤ t_out)
    (h2 : t_out - t_in < 86400) :
    checkOp dp false day (some t_out)
        (checkOp dp true day (some t_in) data) (day.fdiv 86400)
      = some { checkin_timestamp := some (86400 * day.fdiv 86400 + t_in),
               checkout_timestamp := some (86400 * day.fdiv 86400 + t_out),
               pause := 1/2,
               productive_time :=
                 quarter_round (((t_out - t_in : ℤ) : ℚ) / 60 / 60) - dp,
               category := BookingCategory.MOBILE,
               description := none } := by
  have hmod : (t_out - t_in) % 86400 = t_out - t_in :=
    Int.emod_eq_of_lt (by omega) (by omega)
  simp [checkOp, Store.set, h0, applyCheck, booking_date_of,
    add_sub_add_left_eq_sub, hmod]

/-- Witness for C1: check-in `09:00` (32400 s), check-out `17:30` (63000 s)
on day 0 over the empty store gives `productive_time`
`quarter_round(8.5) - 0.5 = 8`, `pause = 0.5`, category `MOBILE`. -/
theorem checkin_then_checkout_productive_witness :
    Store.empty ((0 : ℤ).fdiv 86400) = none
    ∧ checkOp (1/2) false 0 (some 63000)
        (checkOp (1/2) true 0 (some 32400) Store.empty) ((0 : ℤ).fdiv 86400)
      = some { checkin_timestamp := some (86400 * (0 : ℤ).fdiv 86400 + 32400),
               checkout_timestamp := some (86400 * (0 : ℤ).fdiv 86400 + 63000),
               pause := 1/2,
               productive_time :=
                 quarter_round (((63000 - 32400 : ℤ) : ℚ) / 60 / 60) - 1/2,
               category := BookingCategory.MOBILE,
               description := none }
    ∧ quarter_round (((63000 - 32400 : ℤ) : ℚ) / 60 / 60) - 1/2 = 8 := by
  refine ⟨rfl,
    checkin_then_checkout_productive (1/2) 0 32400 63000 Store.empty rfl
      (by norm_num) (by norm_num), ?_⟩
  rw [show ((63000 - 32400 : ℤ) : ℚ) / 60 / 60 = ((34 : ℤ) : ℚ) / 4 by
    norm_num, quarter_round_int_div_four]
  norm_num

/-- C7: a check-in overwrites only `checkin_timestamp` (leaving
`checkout_timestamp` untouched) and, symmetrically, a check-out overwrites
only `checkout_timestamp`; `pause`, `category` and `description` are
unchanged by either operation.  This holds for every prior booking state, in
particular for an already-checked-in day. -/
theorem check_overwrites_only_own_timestamp (dp : ℚ) (ts : ℤ) (b : Booking) :
    ((applyCheck dp true ts b).checkin_timestamp = some ts
      ∧ (applyCheck dp true ts b).checkout_timestamp = b.checkout_timestamp
      ∧ (applyCheck dp true ts b).pause = b.pause
      ∧ (applyCheck dp true ts b).category = b.category
      ∧ (applyCheck dp true ts b).description = b.description)
    ∧ ((applyCheck dp false ts b).checkout_timestamp = some ts
      ∧ (applyCheck dp false ts b).checkin_timestamp = b.checkin_timestamp
      ∧ (applyCheck dp false ts b).pause = b.pause
      ∧ (applyCheck dp false ts b).category = b.category
      ∧ (applyCheck dp false ts b).description = b.description) :=
  ⟨applyCheck_true_fields dp ts b, applyCheck_false_fields dp ts b⟩

theorem applyCheck_productive_invariant (dp : ℚ) (f : Bool) (t : ℤ)
    (b : Booking)
    (hb : b.productive_time ≠ 0 →
      b.checkin_timestamp.isSome ∧ b.checkout_timestamp.isSome) :
    (applyCheck dp f t b).productive_time ≠ 0 →
      (applyCheck dp f t b).checkin_timestamp.isSome
      ∧ (applyCheck dp f t b).checkout_timestamp.isSome := by
  obtain ⟨ci, co, pz, pt, cat, ds⟩ := b
  cases f <;> cases ci <;> cases co <;> simp_all [applyCheck]

theorem applyChecks_productive_invariant (dp : ℚ) (ops : List (Bool × ℤ))
    (b : Booking)
    (hb : b.productive_time ≠ 0 →
      b.checkin_timestamp.isSome ∧ b.checkout_timestamp.isSome) :
    (applyChecks dp ops b).productive_time ≠ 0 →
      (applyChecks dp ops b).checkin_timestamp.isSome
      ∧ (applyChecks dp ops b).checkout_timestamp.isSome := by
  induction ops generalizing b with
  | nil => simpa [applyChecks] using hb
  | cons op rest ih =>
      simp only [applyChecks, List.foldl_cons] at *
      exact ih (applyCheck dp op.1 op.2 b)
        (applyCheck_productive_invariant dp op.1 op.2 b hb)

/-- C4: starting from a default (fresh) booking, any sequence of
check-in/check-out operations yields a booking whose `productive_time` is
non-zero only when both timestamps are present; in particular a single
check-in leaves `productive_time = 0`. -/
theorem productive_time_zero_until_both (dp : ℚ) (ops : List (Bool × ℤ)) :
    ((applyChecks dp ops {}).productive_time ≠ 0 →
      (applyChecks dp ops {}).checkin_timestamp.isSome
      ∧ (applyChecks dp ops {}).checkout_timestamp.isSome)
    ∧ ∀ t : ℤ, (applyCheck dp true t {}).productive_time = 0 := by
  constructor
  · exact applyChecks_productive_invariant dp ops {} (fun h => absurd rfl h)
  · intro t
    simp [applyCheck]

/-- Witness for C4: the check-in/check-out pair `09:00`/`17:30` produces
`productive_time = 8 ≠ 0` and indeed both timestamps are present; a lone
check-in has `productive_time = 0`. -/
theorem productive_time_zero_until_both_witness :
    (applyChecks (1/2) [(true, 32400), (false, 63000)] {}).productive_time ≠ 0
    ∧ (applyChecks (1/2) [(true, 32400), (false, 63000)]
        {}).checkin_timestamp.isSome
    ∧ (applyChecks (1/2) [(true, 32400), (false, 63000)]
        {}).checkout_timestamp.isSome
    ∧ (applyCheck (1/2) true 32400 {}).productive_time = 0 := by
  have hpt : (applyChecks ((1 : ℚ)/2) [(true, 32400), (false, 63000)]
      {}).productive_time
      = quarter_round ((((63000 - 32400 : ℤ) % 86400 : ℤ) : ℚ) / 60 / 60) - 1/2 := by
    simp [applyChecks, applyCheck]
  have hne : (applyChecks ((1 : ℚ)/2) [(true, 32400), (false, 63000)]
      {}).productive_time ≠ 0 := by
    rw [hpt]
    rw [show (((63000 - 32400 : ℤ) % 86400 : ℤ) : ℚ) / 60 / 60
      = ((34 : ℤ) : ℚ) / 4 by norm_num, quarter_round_int_div_four]
    norm_num
  have hboth := (productive_time_zero_until_both (1/2)
    [(true, 32400), (false, 63000)]).1 hne
  exact ⟨hne, hboth.1, hboth.2,
    (productive_time_zero_until_both (1/2) []).2 32400⟩

/-- C2 counterexample: with wall-clock `now` at 01:00 of day 100
(8643600 s) and `--date` resolving to midnight of day 50 (4320000 s), a
plain check-in (no explicit HH:MM) stores checkin timestamp 4320000 —
midnight of the resolved day — and not the current moment 8643600, refuting
the claim that the actual current moment is used. -/
theorem check_now_with_date_counterexample :
    checkOp (1/2) true (day_to_work_on 8643600 (some 4320000)) none
        Store.empty ((4320000 : ℤ).fdiv 86400)
      = some { checkin_timestamp := some 4320000,
               checkout_timestamp := none,
               pause := 1/2, productive_time := 0,
               category := BookingCategory.MOBILE, description := none }
    ∧ (4320000 : ℤ) ≠ 8643600 := by
  constructor
  · rfl
  · norm_num

/-- C2 (amended): when a check-in is recorded without an explicit HH:MM time
but with an explicit `--date`, the assigned timestamp is the parsed `--date`
moment itself (midnight of that date when a bare date is given) — anchored
to the resolved day-key — because `__day_to_work_on` is overwritten by the
parsed date; the actual current moment is used only when `--date` is
absent. -/
theorem check_now_timestamp_anchored_to_date (dp : ℚ) (now d : ℤ)
    (data : Store) :
    (∃ b, checkOp dp true (day_to_work_on now (some d)) none data
        (d.fdiv 86400) = some b ∧ b.checkin_timestamp = some d)
    ∧ (∃ b, checkOp dp true (day_to_work_on now none) none data
        (now.fdiv 86400) = some b ∧ b.checkin_timestamp = some now) := by
  constructor
  · refine ⟨applyCheck dp true d ((data ((d : ℤ).fdiv 86400)).getD {}),
      ?_, (applyCheck_true_fields dp d _).1⟩
    simp [checkOp, day_to_work_on, Store.set, booking_date_of]
  · refine ⟨applyCheck dp true now ((data ((now : ℤ).fdiv 86400)).getD {}),
      ?_, (applyCheck_true_fields dp now _).1⟩
    simp [checkOp, day_to_work_on, Store.set, booking_date_of]

/-- C3: for a rendered day-key whose booking exists (with a checkin
timestamp — without one the renderer fails, see C9), the displayed
productive-time cell is the persisted `productive_time` when it is non-zero,
and otherwise the live estimate `quarter_round(hours from checkin to now) -
pause` using the booking's own per-record `pause` field (stated in the
in-progress regime `ci ≤ now < ci + 24h` where the normalized seconds
component is the true difference); by contrast, the value persisted on
checkout is computed with the process-wide default pause `dp`, not the
per-record field. -/
theorem displayed_productive_time_selection (now key : ℤ) (data : Store)
    (b : Booking) (ci : ℤ) (hb : data key = some b)
    (hci : b.checkin_timestamp = some ci) :
    (b.productive_time ≠ 0 →
      (renderRow now data key).bind Row.prodValue = some b.productive_time)
    ∧ (b.productive_time = 0 → ci ≤ now → now - ci < 86400 →
      (renderRow now data key).bind Row.prodValue
        = some (quarter_round (((now - ci : ℤ) : ℚ) / 60 / 60) - b.pause))
    ∧ (∀ (dp : ℚ) (t ci2 : ℤ) (b2 : Booking),
        b2.checkin_timestamp = some ci2 →
        (applyCheck dp false t b2).productive_time
          = quarter_round ((((t - ci2) % 86400 : ℤ) : ℚ) / 60 / 60) - dp) := by
  refine ⟨?_, ?_, ?_⟩
  · intro hpt
    simp [renderRow, hb, hci, Row.prodValue, hpt]
  · intro hpt h1 h2
    have hmod : (now - ci) % 86400 = now - ci :=
      Int.emod_eq_of_lt (by omega) (by omega)
    simp [renderRow, hb, hci, Row.prodValue, hpt, hmod]
  · intro dp t ci2 b2 hci2
    obtain ⟨ci2', co2, pz, pt, cat, ds⟩ := b2
    simp only [Booking.checkin_timestamp] at hci2
    subst hci2
    simp [applyCheck]

/-- Witness for C3: a booking checked in at 01:00 (3600 s) with persisted
`productive_time = 0`, rendered at 02:00 (7200 s), displays the live
estimate `quarter_round(1) - 0.5 = 0.5` using its per-record pause. -/
theorem displayed_productive_time_selection_witness :
    (Store.set Store.empty 0 { checkin_timestamp := some 3600 }) 0
      = some { checkin_timestamp := some 3600 }
    ∧ (renderRow 7200 (Store.set Store.empty 0
          { checkin_timestamp := some 3600 }) 0).bind Row.prodValue
      = some (quarter_round (((7200 - 3600 : ℤ) : ℚ) / 60 / 60) - 1/2)
    ∧ quarter_round (((7200 - 3600 : ℤ) : ℚ) / 60 / 60) - (1/2 : ℚ) = 1/2 := by
  refine ⟨rfl, (displayed_productive_time_selection 7200 0
      (Store.set Store.empty 0 { checkin_timestamp := some 3600 })
      { checkin_timestamp := some 3600 } 3600 rfl rfl).2.1 rfl
      (by norm_num) (by norm_num), ?_⟩
  rw [show ((7200 - 3600 : ℤ) : ℚ) / 60 / 60 = ((4 : ℤ) : ℚ) / 4 by norm_num,
    quarter_round_int_div_four]
  norm_num

/-- C8: the `--category` branch never mutates the record store (a valid
value is only echoed, not persisted), and an unknown value is a soft error:
the warning line is returned and the operation is total (the run continues
rather than aborting). -/
theorem category_never_mutates_store (data : Store) (c : String) :
    (categoryStep data c).1 = data
    ∧ (c ∉ category_values →
        (categoryStep data c).2 = "Unknown value: " ++ c)
    ∧ (c ∈ category_values → (categoryStep data c).2 = c) := by
  unfold categoryStep
  split_ifs with h <;> simp_all

/-- Witness for C8: `"WEEKEND"` is outside the enumeration: the store is
unchanged and the warning is produced; `"MOBILE"` is inside: the store is
unchanged and the value is echoed. -/
theorem category_never_mutates_store_witness :
    "WEEKEND" ∉ category_values
    ∧ (categoryStep Store.empty "WEEKEND").1 = Store.empty
    ∧ (categoryStep Store.empty "WEEKEND").2 = "Unknown value: " ++ "WEEKEND"
    ∧ "MOBILE" ∈ category_values
    ∧ (categoryStep Store.empty "MOBILE").2 = "MOBILE" := by
  have hno : "WEEKEND" ∉ category_values := by decide
  have hyes : "MOBILE" ∈ category_values := by decide
  exact ⟨hno, (category_never_mutates_store Store.empty "WEEKEND").1,
    (category_never_mutates_store Store.empty "WEEKEND").2.1 hno, hyes,
    (category_never_mutates_store Store.empty "MOBILE").2.2 hyes⟩

/-- C9: a check-out on a day-key with no prior booking stores a booking with
`checkout_timestamp` set, no `checkin_timestamp` and zero `productive_time`
(`__check` saves the store to disk on line 122, before rendering on line
123, so the mutation persists), and the subsequent single-day render of that
key fails (the Python code raises on the absent `checkin_timestamp`), so the
invocation aborts during the rendering side effect. -/
theorem checkout_only_persists_then_render_fails (dp : ℚ) (now day : ℤ)
    (bt : Option ℤ) (data : Store) (h0 : data (day.fdiv 86400) = none) :
    (checkRender dp now day false bt data).1 (day.fdiv 86400)
      = some { checkin_timestamp := none,
               checkout_timestamp := some (booking_date_of day bt),
               pause := 1/2, productive_time := 0,
               category := BookingCategory.MOBILE, description := none }
    ∧ (checkRender dp now day false bt data).2 = none := by
  constructor
  · simp [checkRender, checkOp, Store.set, h0, applyCheck]
  · simp [checkRender, print_table, renderRow, checkOp, Store.set, h0,
      applyCheck, List.mapM, List.mapM.loop]

/-- Witness for C9: checking out "now" (200000 s) on the fresh day-key of
day 1 (timestamp 100000 s) over the empty store persists the checkout-only
booking and the render of that key fails. -/
theorem checkout_only_persists_then_render_fails_witness :
    Store.empty ((100000 : ℤ).fdiv 86400) = none
    ∧ (checkRender (1/2) 200000 100000 false none Store.empty).1
        ((100000 : ℤ).fdiv 86400)
      = some { checkin_timestamp := none,
               checkout_timestamp := some (booking_date_of 100000 none),
               pause := 1/2, productive_time := 0,
               category := BookingCategory.MOBILE, description := none }
    ∧ (checkRender (1/2) 200000 100000 false none Store.empty).2 = none := by
  have h := checkout_only_persists_then_render_fails (1/2) 200000 100000
    none Store.empty rfl
  exact ⟨rfl, h.1, h.2⟩

/-- C10: when the checkout timestamp is 24 hours or more after the checkin,
or earlier than it, the recomputed `productive_time` equals `quarter_round`
of the difference reduced modulo 24 hours (in hours) minus the pause, and it
provably differs from the value derived from the true signed hour
difference; the renderer's live estimate uses the same modulo-24h seconds
component of `now - checkin`. -/
theorem productive_time_uses_mod_24h (dp : ℚ) (ci co : ℤ) (b : Booking)
    (h : 86400 ≤ co - ci ∨ co < ci) :
    ((applyCheck dp false co
        { b with checkin_timestamp := some ci }).productive_time
      = quarter_round ((((co - ci) % 86400 : ℤ) : ℚ) / 60 / 60) - dp)
    ∧ ((applyCheck dp false co
        { b with checkin_timestamp := some ci }).productive_time
      ≠ quarter_round (((co - ci : ℤ) : ℚ) / 60 / 60) - dp)
    ∧ (∀ (now key : ℤ) (data : Store) (b2 : Booking) (ci2 : ℤ),
        data key = some b2 → b2.checkin_timestamp = some ci2 →
        b2.productive_time = 0 →
        (renderRow now data key).bind Row.prodValue
          = some (quarter_round ((((now - ci2) % 86400 : ℤ) : ℚ) / 60 / 60)
              - b2.pause)) := by
  have hfirst : (applyCheck dp false co
      { b with checkin_timestamp := some ci }).productive_time
      = quarter_round ((((co - ci) % 86400 : ℤ) : ℚ) / 60 / 60) - dp := by
    simp [applyCheck]
  refine ⟨hfirst, ?_, ?_⟩
  · have hd : co - ci = 86400 * ((co - ci) / 86400) + (co - ci) % 86400 :=
      (Int.ediv_add_emod _ _).symm
    have hr0 : 0 ≤ (co - ci) % 86400 := Int.emod_nonneg _ (by norm_num)
    have hr1 : (co - ci) % 86400 < 86400 := Int.emod_lt_of_pos _ (by norm_num)
    have hk0 : (co - ci) / 86400 ≠ 0 := by rcases h with h | h <;> omega
    have hq : ((co - ci : ℤ) : ℚ) / 60 / 60
        = (((co - ci) % 86400 : ℤ) : ℚ) / 60 / 60
          + 24 * (((co - ci) / 86400 : ℤ) : ℚ) := by
      have hcast : ((co - ci : ℤ) : ℚ)
          = 86400 * (((co - ci) / 86400 : ℤ) : ℚ)
            + (((co - ci) % 86400 : ℤ) : ℚ) := by
        exact_mod_cast hd
      rw [hcast]
      ring
    rw [hfirst, hq, quarter_round_add_24]
    intro heq
    have hkq : (((co - ci) / 86400 : ℤ) : ℚ) = 0 := by linarith
    exact hk0 (by exact_mod_cast hkq)
  · intro now key data b2 ci2 hb hci2 hpt
    simp [renderRow, hb, hci2, Row.prodValue, hpt]

/-- Witness for C10: checkin at 0, checkout 25 hours later (90000 s): the
stored `productive_time` is `quarter_round(1) - 0.5 = 0.5`, computed from
the 3600 s remainder, and differs from the true-difference value. -/
theorem productive_time_uses_mod_24h_witness :
    (86400 ≤ (90000 : ℤ) - 0 ∨ (90000 : ℤ) < 0)
    ∧ (applyCheck (1/2) false 90000
        { checkin_timestamp := some 0 }).productive_time
      = quarter_round ((((90000 - 0 : ℤ) % 86400 : ℤ) : ℚ) / 60 / 60) - 1/2
    ∧ (applyCheck (1/2) false 90000
        { checkin_timestamp := some 0 }).productive_time
      ≠ quarter_round (((90000 - 0 : ℤ) : ℚ) / 60 / 60) - 1/2
    ∧ quarter_round ((((90000 - 0 : ℤ) % 86400 : ℤ) : ℚ) / 60 / 60) - (1/2 : ℚ)
      = 1/2 := by
  have h := productive_time_uses_mod_24h (1/2) 0 90000 {}
    (Or.inl (by norm_num))
  refine ⟨Or.inl (by norm_num), h.1, h.2.1, ?_⟩
  rw [show (((90000 - 0 : ℤ) % 86400 : ℤ) : ℚ) / 60 / 60 = ((4 : ℤ) : ℚ) / 4
    by norm_num, quarter_round_int_div_four]
  norm_num

end Keeper
